import Mathlib

/-!
# Verification of the edgeone-proxy request-forwarding pipeline

This file gives a shallow embedding, over `List Char` strings, of the three
edge-function handlers of the repository:

* the "enhanced" query-parameter proxy (`src/functions/proxy.js`, first
  document: `onRequest`, `buildForwardHeaders`, `buildResponseHeaders`,
  `handleCORSPreflight`),
* the GitHub-routing proxy (`src/functions/proxy.js`, second document:
  `handleRequest`, `proxyRequest`, `proxyFetch`, `processResponse`,
  `checkUrl`, the six URL regexes, `makeResponse`),
* the passthrough query-parameter proxy (`src/unnamed/part_000`: `onRequest`).

The platform transport (`fetch`) is modeled as an oracle function from an
outbound request to either a thrown error message or an upstream response.
The unbounded JavaScript recursion of `proxyFetch`/`processResponse` is
modeled with an explicit fuel parameter; exhausted fuel (`POut.spin`)
represents a computation that is still re-forwarding, i.e. has not
terminated.  URL parsing (`new URL`) is a platform primitive and is modeled
by a parser accepting `scheme://host...` shapes, which is the fragment of
WHATWG URL syntax the proxied targets exercise; strings without a scheme
separator are rejected exactly as `new URL` rejects them.
-/

/-- JavaScript strings are modeled as lists of characters. -/
abbrev Str := List Char

/-- ASCII lowercase of a string, for case-insensitive regex flags and
case-insensitive header keys. -/
def lowerStr (s : Str) : Str := s.map Char.toLower

/-- JavaScript truthiness of a nullable string (`null` and `""` are falsy). -/
def truthy (o : Option Str) : Bool :=
  match o with
  | some s => !s.isEmpty
  | none => false

/-- Header collections: ordered key/value pairs, looked up case-insensitively
(the `Headers` platform type). -/
abbrev Headers := List (Str × Str)

/-- `Headers.get`: first entry whose key matches case-insensitively. -/
def getHeader (hs : Headers) (k : Str) : Option Str :=
  (hs.find? (fun p => lowerStr p.1 == lowerStr k)).map (fun p => p.2)

/-- `Headers.set`: drop entries with a case-insensitively equal key, then
append the new pair. -/
def setHeader (hs : Headers) (k v : Str) : Headers :=
  (hs.filter (fun p => !(lowerStr p.1 == lowerStr k))) ++ [(k, v)]

/-- `Headers.delete`. -/
def delHeader (hs : Headers) (k : Str) : Headers :=
  hs.filter (fun p => !(lowerStr p.1 == lowerStr k))

/-- Strip a literal pattern off the front of a string, if present. -/
def stripPfx (pat s : Str) : Option Str :=
  if pat.isPrefixOf s then some (s.drop pat.length) else none

/-- All decompositions `s = a ++ b`, in order of increasing `a`. -/
def splits : Str → List (Str × Str)
  | [] => [([], [])]
  | c :: t => ([], c :: t) :: (splits t).map (fun p => (c :: p.1, p.2))

/-- Does some decomposition `s = a ++ b` satisfy `p a` and `q b`?  This is
the semantics of regex concatenation. -/
def existsSplit (p q : Str → Bool) (s : Str) : Bool :=
  (splits s).any (fun pr => p pr.1 && q pr.2)

/-- Semantics of the regex `.*` (any characters except newline). -/
def dotStar (s : Str) : Bool := s.all (fun c => c != '\n')

/-- Semantics of the regex `.+` (nonempty, no newline). -/
def dotPlus (s : Str) : Bool := !s.isEmpty && dotStar s

/-- Semantics of `.+?\/` followed by a continuation: some split into a
nonempty newline-free prefix, a literal slash, and a continuation match. -/
def seg2 (p : Str → Bool) (rem : Str) : Bool :=
  existsSplit dotPlus
    (fun r => match r with
      | '/' :: r2 => p r2
      | _ => false) rem

/-- Keyword alternation tails of the GitHub regexes: one of `kws`, then
either `\/.*` (when `needSlash`) or `.*`. -/
def kwTail (kws : List Str) (needSlash : Bool) (r : Str) : Bool :=
  kws.any (fun kw =>
    match stripPfx kw r with
    | some t =>
        if needSlash then
          match t with
          | '/' :: t2 => dotStar t2
          | _ => false
        else dotStar t
    | none => false)

/-- `.+?\/.+?\/` then a keyword tail — the shared shape of `exp1`, `exp2`,
`exp3`, `exp6` after the `github.com/` literal. -/
def ghTail (kws : List Str) (needSlash : Bool) (t : Str) : Bool :=
  seg2 (seg2 (kwTail kws needSlash)) t

/-- Remainders of `s` after the optional scheme group `(?:https?:\/\/)?`. -/
def afterScheme (s : Str) : List Str :=
  s :: ((stripPfx ("http://".toList) s).toList ++ (stripPfx ("https://".toList) s).toList)

/-- Remainders of `s` after any of the literal host alternatives. -/
def hostTail (hosts : List Str) (s : Str) : List Str :=
  hosts.filterMap (fun h0 => stripPfx h0 s)

/-- `exp1 = /^(?:https?:\/\/)?github\.com\/.+?\/.+?\/(?:releases|archive)\/.*$/i` -/
def exp1m (s : Str) : Bool :=
  (afterScheme (lowerStr s)).any (fun r =>
    match stripPfx ("github.com/".toList) r with
    | some t => ghTail [("releases".toList), ("archive".toList)] true t
    | none => false)

/-- `exp2 = /^(?:https?:\/\/)?github\.com\/.+?\/.+?\/(?:blob|raw)\/.*$/i` -/
def exp2m (s : Str) : Bool :=
  (afterScheme (lowerStr s)).any (fun r =>
    match stripPfx ("github.com/".toList) r with
    | some t => ghTail [("blob".toList), ("raw".toList)] true t
    | none => false)

/-- `exp3 = /^(?:https?:\/\/)?github\.com\/.+?\/.+?\/(?:info|git-).*$/i` -/
def exp3m (s : Str) : Bool :=
  (afterScheme (lowerStr s)).any (fun r =>
    match stripPfx ("github.com/".toList) r with
    | some t => ghTail [("info".toList), ("git-".toList)] false t
    | none => false)

/-- `exp4 = /^(?:https?:\/\/)?raw\.(?:githubusercontent|github)\.com\/.+?\/.+?\/.+?\/.+$/i` -/
def exp4m (s : Str) : Bool :=
  (afterScheme (lowerStr s)).any (fun r =>
    (hostTail [("raw.githubusercontent.com/".toList), ("raw.github.com/".toList)] r).any
      (fun t => seg2 (seg2 (seg2 dotPlus)) t))

/-- `exp5 = /^(?:https?:\/\/)?gist\.(?:githubusercontent|github)\.com\/.+?\/.+?\/.+$/i` -/
def exp5m (s : Str) : Bool :=
  (afterScheme (lowerStr s)).any (fun r =>
    (hostTail [("gist.githubusercontent.com/".toList), ("gist.github.com/".toList)] r).any
      (fun t => seg2 (seg2 dotPlus) t))

/-- `exp6 = /^(?:https?:\/\/)?github\.com\/.+?\/.+?\/tags.*$/i` -/
def exp6m (s : Str) : Bool :=
  (afterScheme (lowerStr s)).any (fun r =>
    match stripPfx ("github.com/".toList) r with
    | some t => ghTail [("tags".toList)] false t
    | none => false)

/-- `checkUrl(url)`: `[exp1..exp6].some(p => url.search(p) === 0)`; the
patterns are anchored, so `search === 0` coincides with a full match. -/
def checkUrl (s : Str) : Bool :=
  exp1m s || exp2m s || exp3m s || exp4m s || exp5m s || exp6m s

/-- The `URL` platform object: scheme (without `:`), hostname, and the rest
of the string (path, query, port if any). -/
structure UrlObj where
  scheme : Str
  host : Str
  rest : Str
deriving DecidableEq, Repr

/-- `url.href` reassembles the parsed pieces (round-trips the input). -/
def UrlObj.href (u : UrlObj) : Str :=
  u.scheme ++ (":".toList) ++ ("//".toList) ++ u.host ++ u.rest

/-- Modeled from the platform primitive `new URL` (`createUrl` wraps it in a
try/catch returning `null`): accepts `scheme://host...` with an alphabetic
scheme and a nonempty host; anything without that shape — in particular any
string with no `:` at all, such as a scheme-less `raw.githubusercontent.com/...`
path — throws, i.e. yields `none` here. -/
def createUrl (s : Str) : Option UrlObj :=
  let sch := s.takeWhile Char.isAlpha
  let rest := s.drop sch.length
  if sch.isEmpty then none
  else
    match rest with
    | ':' :: '/' :: '/' :: hostRest =>
        let host := hostRest.takeWhile
          (fun c => c != '/' && c != ':' && c != '?' && c != '#')
        if host.isEmpty then none
        else some { scheme := sch, host := host, rest := hostRest.drop host.length }
    | _ => none

/-- JavaScript `String.prototype.replace` with a string pattern: replaces the
first occurrence only. -/
def replaceFirst (pat rep : Str) : Str → Str
  | [] => if pat.isEmpty then rep else []
  | c :: t =>
      if pat.isPrefixOf (c :: t) then rep ++ (c :: t).drop pat.length
      else c :: replaceFirst pat rep t

/-- `path.replace(/^https?:\/+/, 'https://')` (case-sensitive, anchored):
`http:`/`https:` followed by one or more slashes becomes `https://`. -/
def normalizeScheme (s : Str) : Str :=
  match (stripPfx ("https:".toList) s).orElse (fun _ => stripPfx ("http:".toList) s) with
  | some r =>
      let slashes := r.takeWhile (fun c => c == '/')
      if slashes.isEmpty then s
      else ("https://".toList) ++ r.dropWhile (fun c => c == '/')
  | none => s

/-- `.replace(/^(?:https?:\/\/)?github\.com, 'https://cdn.jsdelivr.net/gh')`
(case-sensitive, first match, anchored at the start). -/
def replaceGithubHost (s : Str) : Str :=
  match stripPfx ("https://github.com".toList) s with
  | some t => ("https://cdn.jsdelivr.net/gh".toList) ++ t
  | none =>
      match stripPfx ("http://github.com".toList) s with
      | some t => ("https://cdn.jsdelivr.net/gh".toList) ++ t
      | none =>
          match stripPfx ("github.com".toList) s with
          | some t => ("https://cdn.jsdelivr.net/gh".toList) ++ t
          | none => s

/-- The jsDelivr rewrite of the `exp2` branch of `handleRequest`:
`path.replace('/blob/', '@').replace(/^(?:https?:\/\/)?github\.com/, 'https://cdn.jsdelivr.net/gh')`. -/
def jsdelivrUrl (path : Str) : Str :=
  replaceGithubHost (replaceFirst ("/blob/".toList) ("@".toList) path)

/-- JavaScript `String.prototype.includes`: does `pat` occur as a contiguous
substring of the second argument? -/
def jsIncludes (pat : Str) : Str → Bool
  | [] => pat.isEmpty
  | c :: t => pat.isPrefixOf (c :: t) || jsIncludes pat t

/-- Response envelope: status, headers, opaque body (bytes as chars). -/
structure Resp where
  status : Nat
  headers : Headers
  body : Str
deriving DecidableEq, Repr

/-- An outbound transport request: everything the JavaScript `fetch` call
receives (URL, method, headers, optional body). -/
structure FetchReq where
  url : Str
  method : Str
  headers : Headers
  body : Option Str
deriving DecidableEq, Repr

/-- The transport capability: `fetch` either rejects with an error message or
resolves to an upstream response. -/
abbrev Fetch := FetchReq → Except Str Resp

/-- Outcome of a handler run: a returned response, a propagating JavaScript
exception, or fuel exhaustion (`spin`), which models a recursion that is
still re-forwarding and has not terminated. -/
inductive POut where
  | out (r : Resp)
  | err (msg : Str)
  | spin
deriving DecidableEq, Repr

/-- The request-like argument of `proxyFetch`: the original platform request
has a callable `arrayBuffer` (`hasBuf = true`); the plain
`{ method, headers }` object passed on redirect recursion does not. -/
structure ReqLite where
  method : Str
  headers : Headers
  hasBuf : Bool
  body : Str
deriving DecidableEq, Repr

/-- Inbound request as seen by the GitHub-routing `handleRequest`: method,
headers, the request host, the `q` search parameter, the portion of `href`
after `origin + PREFIX`, and the body. -/
structure GReq where
  method : Str
  headers : Headers
  host : Str
  q : Option Str
  rawPath : Str
  body : Str
deriving DecidableEq, Repr

/-- Inbound request as seen by the query-parameter variants: the `url`
search parameter, method, headers, body. -/
structure QReq where
  urlParam : Option Str
  method : Str
  headers : Headers
  body : Str
deriving DecidableEq, Repr

/-- Source constant `PREFIX = '/'`. -/
def PFX : Str := "/".toList

/-- Source constant `ASSET_URL` (unused by the control flow under proof). -/
def ASSET_URL : Str := "https://hunshcn.github.io/gh-proxy/".toList

/-- Source constant `Config = { jsdelivr: 1 }`: the CDN-mirror toggle, truthy
in the shipped configuration. -/
def Config.jsdelivr : Bool := true

/-- Source constant `whiteList = []`: the shipped path whitelist is empty.
The pipeline functions take the whitelist as an explicit argument so that
claims quantifying over configurations can be stated; this constant is the
shipped value. -/
def whiteList : List Str := []

/-- `makeResponse(body, status, headers)`: forces
`access-control-allow-origin: *` onto the given headers. -/
def makeResponse (body : Str) (status : Nat) (headers : Headers) : Resp :=
  { status := status
    headers := setHeader headers ("access-control-allow-origin".toList) ("*".toList)
    body := body }

/-- Source constant `PREFLIGHT_INIT` as a response (status 204 plus the three
CORS headers). -/
def preflightResp : Resp :=
  { status := 204
    headers :=
      [ (("access-control-allow-origin".toList), ("*".toList))
      , (("access-control-allow-methods".toList), ("GET,POST,PUT,PATCH,TRACE,DELETE,HEAD,OPTIONS".toList))
      , (("access-control-max-age".toList), ("1728000".toList)) ]
    body := [] }

/-- `Response.redirect(url, status)`: throws on an unparsable URL, otherwise
a bodyless response carrying a `location` header. -/
def responseRedirect (url : Str) (status : Nat) : POut :=
  match createUrl url with
  | some _ => POut.out { status := status, headers := [(("location".toList), url)], body := [] }
  | none => POut.err ("Invalid redirect URL".toList)

/-- The static help page of `getHelpPage()`; its markup is documentation
rendering, excluded from the specified core, so the content is abbreviated
to an opaque constant string. -/
def getHelpPage : Str := "GitHub proxy help page".toList

/-- The CORS / security-header epilogue of `processResponse`: set
`access-control-expose-headers`, `access-control-allow-origin`,
`Accept-Language`, then delete `content-security-policy`,
`content-security-policy-report-only` and `clear-site-data`. -/
def finishHeaders (hs : Headers) : Headers :=
  delHeader
    (delHeader
      (delHeader
        (setHeader
          (setHeader
            (setHeader hs ("access-control-expose-headers".toList) ("*".toList))
            ("access-control-allow-origin".toList) ("*".toList))
          ("Accept-Language".toList) ("en-us".toList))
        ("content-security-policy".toList))
      ("content-security-policy-report-only".toList))
    ("clear-site-data".toList)

/-- `processResponse(response, targetUrl, requestInit)`, with the recursive
`proxyFetch` call abstracted as `recurse` (instantiated with the fueled
`proxyFetchFuel` below).  If a `location` header is present and matches a
recognized GitHub pattern it is rewritten to `PREFIX + location`; otherwise
the resolver re-forwards to the redirect target, passing a plain
`{ method, headers }` object (which has no `arrayBuffer`).  An unparsable
`location` makes the platform `fetch`/`URL` machinery throw. -/
def processResponseStep (recurse : UrlObj → ReqLite → POut × List Str)
    (resp : Resp) (riMethod : Str) (riHeaders : Headers) : POut × List Str :=
  match getHeader resp.headers ("location".toList) with
  | some loc =>
      if checkUrl loc then
        (POut.out
          { status := resp.status
            headers := finishHeaders (setHeader resp.headers ("location".toList) (PFX ++ loc))
            body := resp.body }, [])
      else
        match createUrl loc with
        | some u =>
            recurse u { method := riMethod, headers := riHeaders, hasBuf := false, body := [] }
        | none => (POut.err ("invalid redirect target".toList), [])
  | none =>
      (POut.out
        { status := resp.status
          headers := finishHeaders resp.headers
          body := resp.body }, [])

/-- `proxyFetch(targetUrl, originalRequest)` with explicit fuel: copies the
headers, builds `requestInit` (method, headers, manual redirect), reads the
body via `arrayBuffer` for non-GET/HEAD methods (throwing when the
pseudo-request of a redirect hop has no such function), performs the
transport call and hands the response to `processResponse`.  The second
component is the log of URLs actually fetched. -/
def proxyFetchFuel (f : Fetch) : Nat → UrlObj → ReqLite → POut × List Str
  | 0, _, _ => (POut.spin, [])
  | fuel + 1, u, req =>
      let bodyless := req.method == ("GET".toList) || req.method == ("HEAD".toList)
      if !bodyless && !req.hasBuf then
        (POut.err ("originalRequest.arrayBuffer is not a function".toList), [])
      else
        let body := if bodyless then none else some req.body
        match f { url := u.href, method := req.method, headers := req.headers, body := body } with
        | Except.error e => (POut.err e, [u.href])
        | Except.ok resp =>
            let r := processResponseStep (proxyFetchFuel f fuel) resp req.method req.headers
            (r.1, u.href :: r.2)

/-- The 403 response of the whitelist check in `proxyRequest`. -/
def wlRejectResp : Resp := makeResponse ("Access blocked by whitelist".toList) 403 []

/-- `proxyRequest(request, targetUrl)`: OPTIONS/CORS-preflight short-circuit,
whitelist check, `https://` completion for targets starting with `github`,
URL validation, then `proxyFetch`. -/
def proxyRequestFuel (wl : List Str) (f : Fetch) (fuel : Nat) (req : GReq)
    (targetUrl : Str) : POut × List Str :=
  if req.method == ("OPTIONS".toList)
      && truthy (getHeader req.headers ("access-control-request-headers".toList)) then
    (POut.out preflightResp, [])
  else
    let cont : POut × List Str :=
      let finalUrl :=
        if ("github".toList).isPrefixOf targetUrl then ("https://".toList) ++ targetUrl
        else targetUrl
      match createUrl finalUrl with
      | none => (POut.out (makeResponse ("Invalid URL".toList) 400 []), [])
      | some u =>
          proxyFetchFuel f fuel u
            { method := req.method, headers := req.headers, hasBuf := true, body := req.body }
    if 0 < wl.length then
      if wl.any (fun item => jsIncludes item targetUrl) then cont
      else (POut.out wlRejectResp, [])
    else cont

/-- The try-block of `handleRequest(request)`: `q` canonicalization redirect,
path extraction and scheme normalization, help page on an empty path, then
first-match dispatch over the six GitHub patterns, the known host name
dispatch, and the generic passthrough `fetch(path, request)`. -/
def handleRequestCore (wl : List Str) (jsd : Bool) (f : Fetch) (fuel : Nat)
    (req : GReq) : POut × List Str :=
  if truthy req.q then
    (responseRedirect (("https://".toList) ++ req.host ++ PFX ++ (req.q.getD [])) 301, [])
  else
    let path1 := normalizeScheme req.rawPath
    if path1.isEmpty || path1 == PFX then
      (POut.out (makeResponse getHelpPage 200
        [(("content-type".toList), ("text/html; charset=utf-8".toList))]), [])
    else if exp1m path1 || exp3m path1 || exp4m path1 || exp5m path1 || exp6m path1 then
      proxyRequestFuel wl f fuel req path1
    else if exp2m path1 then
      if jsd then (responseRedirect (jsdelivrUrl path1) 302, [])
      else proxyRequestFuel wl f fuel req (replaceFirst ("/blob/".toList) ("/raw/".toList) path1)
    else if ("github.com".toList).isPrefixOf path1
        || ("raw.githubusercontent.com".toList).isPrefixOf path1
        || ("gist.github.com".toList).isPrefixOf path1 then
      proxyRequestFuel wl f fuel req path1
    else
      match createUrl path1 with
      | some _ =>
          match f { url := path1, method := req.method, headers := req.headers, body := some req.body } with
          | Except.ok r => (POut.out r, [path1])
          | Except.error e => (POut.err e, [path1])
      | none => (POut.out (makeResponse ("Invalid URL format".toList) 400 []), [])

/-- `handleRequest` with its surrounding try/catch: any JavaScript exception
is converted to a 502 `EdgeOne proxy error` response. -/
def handleRequest (wl : List Str) (jsd : Bool) (f : Fetch) (fuel : Nat)
    (req : GReq) : POut × List Str :=
  let r := handleRequestCore wl jsd f fuel req
  match r.1 with
  | POut.err msg =>
      (POut.out (makeResponse (("EdgeOne proxy error: ".toList) ++ msg) 502 []), r.2)
  | o => (o, r.2)

/-- Status of a handler outcome, when it returned a response. -/
def statusOf (o : POut × List Str) : Option Nat :=
  match o.1 with
  | POut.out r => some r.status
  | _ => none

/-- A header of a handler outcome, when it returned a response. -/
def headerOf (o : POut × List Str) (k : Str) : Option Str :=
  match o.1 with
  | POut.out r => getHeader r.headers k
  | _ => none

/-- The log of outbound fetches a handler performed. -/
def fetchLog (o : POut × List Str) : List Str := o.2

/-- The allow-list `headersToForward` of the enhanced variant. -/
def headersToForward : List Str :=
  [ ("accept".toList), ("accept-language".toList), ("authorization".toList)
  , ("cache-control".toList), ("content-type".toList), ("pragma".toList)
  , ("user-agent".toList), ("x-requested-with".toList), ("x-api-key".toList)
  , ("x-auth-token".toList) ]

/-- `buildForwardHeaders(request, requestUrl)`: start from an empty
collection, copy the allow-listed inbound headers, inject the
`X-Forwarded-For`/`Proto`/`Host` context headers, and default the
user-agent.  (`url.protocol.slice(0, -1)` is the scheme; ports are not
modeled by the URL parser, so `X-Forwarded-Host` carries the hostname.) -/
def buildForwardHeaders (reqHeaders : Headers) (requestUrl : UrlObj) : Headers :=
  let h1 := headersToForward.foldl
    (fun acc name =>
      match getHeader reqHeaders name with
      | some v => setHeader acc name v
      | none => acc) []
  let h2 := setHeader h1 ("X-Forwarded-For".toList)
    ((getHeader reqHeaders ("CF-Connecting-IP".toList)).getD ("unknown".toList))
  let h3 := setHeader h2 ("X-Forwarded-Proto".toList) requestUrl.scheme
  let h4 := setHeader h3 ("X-Forwarded-Host".toList) requestUrl.host
  if (getHeader h4 ("user-agent".toList)).isSome then h4
  else setHeader h4 ("User-Agent".toList) ("EdgeOne-Proxy/1.0".toList)

/-- `buildResponseHeaders(response)`: copy the upstream headers minus
cookies, `cf-` vendor headers, `server` and `x-powered-by`, then add the
CORS trio and the proxy tag. -/
def buildResponseHeaders (rh : Headers) : Headers :=
  let h0 := rh.foldl
    (fun acc kv =>
      let lk := lowerStr kv.1
      if lk == ("set-cookie".toList) || lk == ("cookie".toList)
          || ("cf-".toList).isPrefixOf lk || lk == ("server".toList)
          || lk == ("x-powered-by".toList) then acc
      else setHeader acc kv.1 kv.2) []
  setHeader
    (setHeader
      (setHeader
        (setHeader h0 ("Access-Control-Allow-Origin".toList) ("*".toList))
        ("Access-Control-Allow-Methods".toList)
        ("GET, POST, PUT, DELETE, PATCH, OPTIONS, HEAD".toList))
      ("Access-Control-Allow-Headers".toList)
      ("Content-Type, Authorization, X-Requested-With, Accept, Origin, User-Agent, Cache-Control, Pragma".toList))
    ("X-Proxy-By".toList) ("EdgeOne-Enhanced-Proxy".toList)

/-- `handleCORSPreflight(request)` of the enhanced variant: fixed 204. -/
def handleCORSPreflight : Resp :=
  { status := 204
    headers :=
      [ (("Access-Control-Allow-Origin".toList), ("*".toList))
      , (("Access-Control-Allow-Methods".toList), ("GET, POST, PUT, DELETE, PATCH, OPTIONS, HEAD".toList))
      , (("Access-Control-Allow-Headers".toList), ("Content-Type, Authorization, X-Requested-With, Accept, Origin, User-Agent, Cache-Control, Pragma".toList))
      , (("Access-Control-Max-Age".toList), ("86400".toList))
      , (("Access-Control-Allow-Credentials".toList), ("false".toList)) ]
    body := [] }

/-- The outbound request the enhanced variant hands to `fetch`:
`new Request(targetUrl.toString(), { method, headers: forwardHeaders, body })`
with the body read only for POST/PUT/PATCH/DELETE. -/
def enhancedOutbound (req : QReq) (requestUrl : UrlObj) (u : UrlObj) : FetchReq :=
  { url := u.href
    method := req.method
    headers := buildForwardHeaders req.headers requestUrl
    body :=
      if [("POST".toList), ("PUT".toList), ("PATCH".toList), ("DELETE".toList)].contains req.method
      then some req.body else none }

/-- The 400 response of the enhanced variant for a missing `url` parameter. -/
def enhancedMissing400 : Resp :=
  { status := 400
    headers :=
      [ (("Content-Type".toList), ("application/json".toList))
      , (("Access-Control-Allow-Origin".toList), ("*".toList)) ]
    body := ("Missing url query parameter".toList) }

/-- The 400 response of the enhanced variant for a malformed target URL. -/
def enhancedInvalid400 : Resp :=
  { status := 400
    headers :=
      [ (("Content-Type".toList), ("application/json".toList))
      , (("Access-Control-Allow-Origin".toList), ("*".toList)) ]
    body := ("Invalid target URL".toList) }

/-- The catch-all 500 response of the enhanced variant. -/
def enhancedError500 (msg : Str) : Resp :=
  { status := 500
    headers :=
      [ (("Content-Type".toList), ("application/json".toList))
      , (("Access-Control-Allow-Origin".toList), ("*".toList)) ]
    body := ("Proxy Error: ".toList) ++ msg }

/-- `onRequest` of the enhanced query-parameter variant
(`src/functions/proxy.js`, first document): missing-parameter check first,
then the OPTIONS preflight branch, target URL validation, header
construction, transport call, response-header rewrite; the surrounding
try/catch converts a transport rejection into a 500 response. -/
def onRequestEnhanced (f : Fetch) (requestUrl : UrlObj) (req : QReq) : Resp :=
  match req.urlParam with
  | none => enhancedMissing400
  | some target =>
      if !truthy (some target) then enhancedMissing400
      else if req.method == ("OPTIONS".toList) then handleCORSPreflight
      else
        match createUrl target with
        | none => enhancedInvalid400
        | some u =>
            match f (enhancedOutbound req requestUrl u) with
            | Except.error e => enhancedError500 e
            | Except.ok resp =>
                { status := resp.status
                  headers := buildResponseHeaders resp.headers
                  body := resp.body }

/-- The outbound request of the passthrough variant (`src/unnamed/part_000`):
`new Request(targetUrl, { method, headers, body })` followed by
`proxyRequest.headers.set('Host', targetUrlObj.hostname)`. -/
def passthroughOutbound (req : QReq) (target : Str) (u : UrlObj) : FetchReq :=
  { url := target
    method := req.method
    headers := setHeader req.headers ("Host".toList) u.host
    body := some req.body }

/-- The 400 response of the passthrough variant for a missing `url`
parameter. -/
def passthroughMissing400 : Resp :=
  { status := 400
    headers :=
      [ (("content-type".toList), ("application/json; charset=UTF-8".toList))
      , (("Access-Control-Allow-Origin".toList), ("*".toList)) ]
    body := ("Missing url parameter".toList) }

/-- The catch-all 500 response of the passthrough variant. -/
def passthroughError500 (msg : Str) : Resp :=
  { status := 500
    headers :=
      [ (("content-type".toList), ("application/json; charset=UTF-8".toList))
      , (("Access-Control-Allow-Origin".toList), ("*".toList)) ]
    body := ("Failed to fetch target URL: ".toList) ++ msg }

/-- The response-header rewrite of the passthrough variant: the three CORS
headers, re-assertion of `Content-Type`/`Content-Disposition`, and removal
of `content-encoding` when present. -/
def passthroughRespHeaders (rh : Headers) : Headers :=
  let h1 := setHeader rh ("Access-Control-Allow-Origin".toList) ("*".toList)
  let h2 := setHeader h1 ("Access-Control-Allow-Methods".toList)
    ("GET, POST, PUT, DELETE, OPTIONS, HEAD, PATCH".toList)
  let h3 := setHeader h2 ("Access-Control-Allow-Headers".toList)
    ("Content-Type, Authorization, X-Requested-With".toList)
  let h4 :=
    match getHeader rh ("content-type".toList) with
    | some v => setHeader h3 ("Content-Type".toList) v
    | none => h3
  let h5 :=
    match getHeader rh ("content-disposition".toList) with
    | some v => setHeader h4 ("Content-Disposition".toList) v
    | none => h4
  match getHeader rh ("content-encoding".toList) with
  | some _ => delHeader h5 ("content-encoding".toList)
  | none => h5

/-- `onRequest` of the passthrough variant (`src/unnamed/part_000`):
missing-parameter check, then a try-block containing URL validation (an
invalid URL therefore lands in the catch as a 500, not a 400), the Host
override, the transport call, and the response rewrite; the catch converts
any failure into a 500 response. -/
def onRequestPassthrough (f : Fetch) (req : QReq) : Resp :=
  if !truthy req.urlParam then passthroughMissing400
  else
    let target := req.urlParam.getD []
    match createUrl target with
    | none => passthroughError500 ("Invalid URL".toList)
    | some u =>
        match f (passthroughOutbound req target u) with
        | Except.error e => passthroughError500 e
        | Except.ok resp =>
            { status := resp.status
              headers := passthroughRespHeaders resp.headers
              body := resp.body }

theorem find?_filter_ne (hs : Headers) (k k' : Str) (h : lowerStr k' ≠ lowerStr k) :
    (hs.filter (fun p => !(lowerStr p.1 == lowerStr k))).find?
      (fun p => lowerStr p.1 == lowerStr k')
    = hs.find? (fun p => lowerStr p.1 == lowerStr k') := by
  induction hs with
  | nil => rfl
  | cons a t ih =>
      rw [List.filter_cons]
      by_cases ha : (lowerStr a.1 == lowerStr k) = true
      · have ha' : (lowerStr a.1 == lowerStr k') = false := by
          rw [beq_eq_false_iff_ne]
          intro e
          exact h (e ▸ (eq_of_beq ha))
        simp [ha, List.find?_cons, ha', ih]
      · simp only [ha, Bool.not_false, if_true, List.find?_cons, Bool.not_eq_true] at *
        cases hpk : (lowerStr a.1 == lowerStr k') with
        | true => simp [List.find?_cons, hpk]
        | false => simp [List.find?_cons, hpk, ih]

theorem getHeader_set_eq (hs : Headers) (k v k' : Str) (h : lowerStr k' = lowerStr k) :
    getHeader (setHeader hs k v) k' = some v := by
  unfold getHeader setHeader
  rw [List.find?_append]
  have h1 : (hs.filter (fun p => !(lowerStr p.1 == lowerStr k))).find?
      (fun p => lowerStr p.1 == lowerStr k') = none := by
    rw [List.find?_eq_none]
    intro x hx
    rcases List.mem_filter.mp hx with ⟨_, hpx⟩
    simp only [Bool.not_eq_true', beq_eq_false_iff_ne] at hpx
    simp only [h, Bool.not_eq_true, beq_eq_false_iff_ne]
    exact hpx
  rw [h1]
  simp [List.find?_cons, h]

theorem getHeader_set_ne (hs : Headers) (k v k' : Str) (h : lowerStr k' ≠ lowerStr k) :
    getHeader (setHeader hs k v) k' = getHeader hs k' := by
  unfold getHeader setHeader
  rw [List.find?_append, find?_filter_ne hs k k' h]
  cases hfind : hs.find? (fun p => lowerStr p.1 == lowerStr k') with
  | some a => simp
  | none =>
      have hk : (lowerStr k == lowerStr k') = false := by
        rw [beq_eq_false_iff_ne]
        exact fun e => h e.symm
      simp [List.find?_cons, hk]

theorem getHeader_del_ne (hs : Headers) (k k' : Str) (h : lowerStr k' ≠ lowerStr k) :
    getHeader (delHeader hs k) k' = getHeader hs k' := by
  unfold getHeader delHeader
  rw [find?_filter_ne hs k k' h]

/-- Claim C7: for every upstream response whose `Location` header matches one
of the recognized GitHub URL patterns, the redirect resolver rewrites the
`Location` header to the configured prefix `PREFIX` prepended to the upstream
value, so the rewritten `Location` begins with the proxy prefix, and no
further forwarding hop is issued. -/
theorem c7_location_rewritten_to_proxy_root
    (recurse : UrlObj → ReqLite → POut × List Str)
    (resp : Resp) (riM : Str) (riH : Headers) (loc : Str)
    (hget : getHeader resp.headers ("location".toList) = some loc)
    (hchk : checkUrl loc = true) :
    processResponseStep recurse resp riM riH =
      (POut.out
        { status := resp.status
          headers := finishHeaders (setHeader resp.headers ("location".toList) (PFX ++ loc))
          body := resp.body }, [])
    ∧ headerOf (processResponseStep recurse resp riM riH) ("location".toList)
        = some (PFX ++ loc)
    ∧ PFX.isPrefixOf (PFX ++ loc) = true := by
  have heq : processResponseStep recurse resp riM riH =
      (POut.out
        { status := resp.status
          headers := finishHeaders (setHeader resp.headers ("location".toList) (PFX ++ loc))
          body := resp.body }, []) := by
    unfold processResponseStep
    rw [hget]
    simp [hchk]
  refine ⟨heq, ?_, ?_⟩
  · rw [heq]
    unfold headerOf
    simp only []
    unfold finishHeaders
    rw [getHeader_del_ne _ _ _ (by decide), getHeader_del_ne _ _ _ (by decide),
      getHeader_del_ne _ _ _ (by decide), getHeader_set_ne _ _ _ _ (by decide),
      getHeader_set_ne _ _ _ _ (by decide), getHeader_set_ne _ _ _ _ (by decide),
      getHeader_set_eq _ _ _ _ (by decide)]
  · simp [PFX, List.isPrefixOf]

/-- Witness for C7 at a concrete releases-pattern `Location`. -/
theorem c7_witness :
    checkUrl ("github.com/a/b/releases/x".toList) = true
    ∧ headerOf
        (processResponseStep (fun _ _ => (POut.spin, []))
          { status := 302
            headers := [(("location".toList), ("github.com/a/b/releases/x".toList))]
            body := [] }
          ("GET".toList) []) ("location".toList)
      = some (PFX ++ ("github.com/a/b/releases/x".toList)) :=
  ⟨by decide,
    (c7_location_rewritten_to_proxy_root (fun _ _ => (POut.spin, []))
      { status := 302
        headers := [(("location".toList), ("github.com/a/b/releases/x".toList))]
        body := [] }
      ("GET".toList) [] ("github.com/a/b/releases/x".toList)
      (by decide) (by decide)).2.1⟩

/-- An upstream that answers every request with a 302 whose `Location` is a
fixed non-GitHub URL: the simplest cyclic redirect chain. -/
def cycOracle : Fetch := fun _ =>
  Except.ok
    { status := 302
      headers := [(("location".toList), ("https://example.com/loop".toList))]
      body := [] }

/-- Claim C1 (refuted): the redirect resolver has NO depth cap.  Against the
cyclic upstream `cycOracle`, whose `Location` never matches a recognized
GitHub pattern, `proxyFetch`/`processResponse` re-forward at every fuel
level: for every depth `n` the run is still `spin` (re-forwarding), so there
is no depth at which the recursion stops with an error response — the
JavaScript original simply recurses forever. -/
theorem c1_redirect_recursion_never_capped (n : Nat) (u : UrlObj) (req : ReqLite)
    (hm : req.method = ("GET".toList)) :
    (proxyFetchFuel cycOracle n u req).1 = POut.spin := by
  induction n generalizing u req with
  | zero => rfl
  | succ n ih =>
      have h1 : (proxyFetchFuel cycOracle (n + 1) u req).1
          = (proxyFetchFuel cycOracle n
              { scheme := ("https".toList), host := ("example.com".toList), rest := ("/loop".toList) }
              { method := req.method, headers := req.headers, hasBuf := false, body := [] }).1 := by
        rw [proxyFetchFuel, hm]
        rfl
      rw [h1]
      exact ih _ _ hm

/-- Witness for C1 at depth 4 from a concrete GitHub release URL. -/
theorem c1_witness :
    (proxyFetchFuel cycOracle 4
      { scheme := ("https".toList), host := ("github.com".toList), rest := ("/a/b/releases/x".toList) }
      { method := ("GET".toList), headers := [], hasBuf := true, body := [] }).1 = POut.spin :=
  c1_redirect_recursion_never_capped 4
    { scheme := ("https".toList), host := ("github.com".toList), rest := ("/a/b/releases/x".toList) }
    { method := ("GET".toList), headers := [], hasBuf := true, body := [] } rfl

/-- A transport that rejects every call with an empty message (used where a
test input must not depend on the upstream). -/
def noFetch : Fetch := fun _ => Except.error []

/-- A transport that rejects every call with the message `boom`. -/
def errBoom : Fetch := fun _ => Except.error ("boom".toList)

/-- A transport that resolves every call with an empty 200 response. -/
def okEmpty : Fetch := fun _ => Except.ok { status := 200, headers := [], body := [] }

/-- A plain GET inbound request of the GitHub-routing variant with the given
raw path. -/
def gReqOf (p : Str) : GReq :=
  { method := ("GET".toList), headers := [], host := ("h".toList), q := none
  , rawPath := p, body := [] }

/-- Claim C9: in the query-parameter variant with the header allow-list, an
OPTIONS request without a `url` parameter gets the 400 missing-parameter
response, not the 204 preflight, because the missing-target check precedes
the CORS-preflight branch. -/
theorem c9_options_without_url_is_400 (f : Fetch) (requestUrl : UrlObj)
    (hs : Headers) (b : Str) :
    onRequestEnhanced f requestUrl
        { urlParam := none, method := ("OPTIONS".toList), headers := hs, body := b }
      = enhancedMissing400
    ∧ (onRequestEnhanced f requestUrl
        { urlParam := none, method := ("OPTIONS".toList), headers := hs, body := b }).status
      = 400 :=
  ⟨rfl, rfl⟩

/-- Counterexample to claim C3 as stated: a path-mode request with an empty
path is answered with the 200 help page, not with status 400. -/
theorem c3_counterexample_empty_path_is_200 :
    statusOf (handleRequest whiteList Config.jsdelivr noFetch 1 (gReqOf [])) = some 200
    ∧ ¬ statusOf (handleRequest whiteList Config.jsdelivr noFetch 1 (gReqOf [])) = some 400 :=
  ⟨rfl, by decide⟩

/-- Claim C3 as amended: a query-parameter-mode request without a `url`
parameter is answered 400 in both query-parameter variants, while a
path-mode request with an empty path is answered with the 200 help page
(not 400). -/
theorem c3_amended_missing_target_statuses (f : Fetch) (requestUrl : UrlObj)
    (wl : List Str) (jsd : Bool) (fuel : Nat)
    (meth host0 b : Str) (hs : Headers) :
    (onRequestEnhanced f requestUrl
        { urlParam := none, method := meth, headers := hs, body := b }).status = 400
    ∧ (onRequestPassthrough f
        { urlParam := none, method := meth, headers := hs, body := b }).status = 400
    ∧ statusOf (handleRequest wl jsd f fuel
        { method := meth, headers := hs, host := host0, q := none, rawPath := [], body := b })
      = some 200 :=
  ⟨rfl, rfl, rfl⟩

/-- Claim C4 (refuted by the code): `proxyRequest` only prepends `https://`
to targets starting with the literal `github`, so a scheme-less
`raw.githubusercontent.com/...` or `gist.github.com/...` path — although
routed into the GitHub pipeline by `exp4`/`exp5` — fails `createUrl` and is
rejected with 400 and no outbound fetch, while the analogous scheme-less
`github.com/...` path is forwarded to the `https://` completion. -/
theorem c4_schemeless_raw_and_gist_rejected :
    statusOf (handleRequest whiteList Config.jsdelivr noFetch 1
        (gReqOf ("raw.githubusercontent.com/u/r/m/f".toList))) = some 400
    ∧ fetchLog (handleRequest whiteList Config.jsdelivr noFetch 1
        (gReqOf ("raw.githubusercontent.com/u/r/m/f".toList))) = []
    ∧ statusOf (handleRequest whiteList Config.jsdelivr noFetch 1
        (gReqOf ("gist.github.com/u/a/raw".toList))) = some 400
    ∧ fetchLog (handleRequest whiteList Config.jsdelivr okEmpty 1
        (gReqOf ("github.com/u/r/releases/x".toList)))
      = [("https://github.com/u/r/releases/x".toList)] :=
  ⟨rfl, rfl, rfl, rfl⟩

/-- Counterexample to claim C2 as stated: in the enhanced query-parameter
variant a rejecting transport yields status 500, not 502. -/
theorem c2_counterexample_enhanced_500 :
    (onRequestEnhanced errBoom
        { scheme := ("https".toList), host := ("proxy.local".toList), rest := ("/".toList) }
        { urlParam := some ("https://example.com/".toList), method := ("GET".toList)
        , headers := [], body := [] }).status = 500
    ∧ ¬ (onRequestEnhanced errBoom
        { scheme := ("https".toList), host := ("proxy.local".toList), rest := ("/".toList) }
        { urlParam := some ("https://example.com/".toList), method := ("GET".toList)
        , headers := [], body := [] }).status = 502 :=
  ⟨rfl, by decide⟩

/-- Claim C2 as amended: a transport rejection surfaces as 502 in the
GitHub-routing variant (`handleRequest`), but as 500 in both query-parameter
variants, whose catch blocks build 500 responses. -/
theorem c2_amended_transport_failure_statuses :
    (∀ (jsd : Bool) (f : Fetch) (n : Nat) (g : GReq) (e : Str) (u : UrlObj),
      truthy g.q = false →
      g.method = ("GET".toList) →
      (exp1m (normalizeScheme g.rawPath) || exp3m (normalizeScheme g.rawPath)
        || exp4m (normalizeScheme g.rawPath) || exp5m (normalizeScheme g.rawPath)
        || exp6m (normalizeScheme g.rawPath)) = true →
      ("github".toList).isPrefixOf (normalizeScheme g.rawPath) = true →
      createUrl (("https://".toList) ++ normalizeScheme g.rawPath) = some u →
      (∀ fr, f fr = Except.error e) →
      statusOf (handleRequest whiteList jsd f (n + 1) g) = some 502)
    ∧ (∀ (f : Fetch) (requestUrl : UrlObj) (q : QReq) (target : Str) (u : UrlObj) (e : Str),
      q.urlParam = some target →
      truthy (some target) = true →
      q.method = ("GET".toList) →
      createUrl target = some u →
      (∀ fr, f fr = Except.error e) →
      (onRequestEnhanced f requestUrl q).status = 500)
    ∧ (∀ (f : Fetch) (q : QReq) (target : Str) (u : UrlObj) (e : Str),
      q.urlParam = some target →
      truthy (some target) = true →
      createUrl target = some u →
      (∀ fr, f fr = Except.error e) →
      (onRequestPassthrough f q).status = 500) := by
  refine ⟨?_, ?_, ?_⟩
  · intro jsd f n g e u hq hm hexp hgh hcu hf
    obtain ⟨t, ht⟩ := List.isPrefixOf_iff_prefix.mp hgh
    have hne : (normalizeScheme g.rawPath).isEmpty = false := by rw [← ht]; rfl
    have hpfx : ((normalizeScheme g.rawPath) == PFX) = false := by rw [← ht]; rfl
    have hopt : ((("GET".toList) : Str) == ("OPTIONS".toList)) = false := rfl
    simp only [handleRequest, handleRequestCore, hq, Bool.false_eq_true, if_false,
      hne, hpfx, Bool.or_self, Bool.or_false, Bool.false_or, hexp, if_true,
      proxyRequestFuel, hm, hopt, Bool.false_and, whiteList, List.length_nil,
      Nat.lt_irrefl, hgh, hcu, proxyFetchFuel, statusOf, makeResponse]
    simp [hf]
  · intro f requestUrl q target u e hparam htruthy hm hcu hf
    simp only [onRequestEnhanced, hparam, htruthy, hm, hcu, hf]
    rfl
  · intro f q target u e hparam htruthy hcu hf
    simp only [onRequestPassthrough, hparam, htruthy, Option.getD_some, hcu, hf]
    rfl

/-- Witness for the amended C2 at concrete requests with a rejecting
transport. -/
theorem c2_amended_witness :
    statusOf (handleRequest whiteList true errBoom 1
        (gReqOf ("github.com/u/r/releases/x".toList))) = some 502
    ∧ (onRequestEnhanced errBoom
        { scheme := ("https".toList), host := ("proxy.local".toList), rest := ("/".toList) }
        { urlParam := some ("https://example.com/".toList), method := ("GET".toList)
        , headers := [], body := [] }).status = 500
    ∧ (onRequestPassthrough errBoom
        { urlParam := some ("https://example.com/".toList), method := ("GET".toList)
        , headers := [], body := [] }).status = 500 := by
  refine ⟨?_, ?_, ?_⟩
  · exact c2_amended_transport_failure_statuses.1 true errBoom 0
      (gReqOf ("github.com/u/r/releases/x".toList)) ("boom".toList)
      { scheme := ("https".toList), host := ("github.com".toList), rest := ("/u/r/releases/x".toList) }
      rfl rfl (by decide) (by decide) rfl (fun _ => rfl)
  · exact c2_amended_transport_failure_statuses.2.1 errBoom
      { scheme := ("https".toList), host := ("proxy.local".toList), rest := ("/".toList) }
      { urlParam := some ("https://example.com/".toList), method := ("GET".toList)
      , headers := [], body := [] }
      ("https://example.com/".toList)
      { scheme := ("https".toList), host := ("example.com".toList), rest := ("/".toList) }
      ("boom".toList) rfl rfl rfl rfl (fun _ => rfl)
  · exact c2_amended_transport_failure_statuses.2.2 errBoom
      { urlParam := some ("https://example.com/".toList), method := ("GET".toList)
      , headers := [], body := [] }
      ("https://example.com/".toList)
      { scheme := ("https".toList), host := ("example.com".toList), rest := ("/".toList) }
      ("boom".toList) rfl rfl rfl (fun _ => rfl)

/-- Claim C10: in the GitHub-routing variant, a path that matches none of
the six GitHub patterns and none of the known host name literals but parses
as a URL is fetched directly and the upstream response is returned to the
client completely unmodified — no CORS headers added, nothing stripped. -/
theorem c10_unrecognized_url_passthrough_unmodified
    (wl : List Str) (jsd : Bool) (f : Fetch) (fuel : Nat) (g : GReq) (resp : Resp)
    (hq : truthy g.q = false)
    (hne : ((normalizeScheme g.rawPath).isEmpty || ((normalizeScheme g.rawPath) == PFX)) = false)
    (hexp : (exp1m (normalizeScheme g.rawPath) || exp3m (normalizeScheme g.rawPath)
      || exp4m (normalizeScheme g.rawPath) || exp5m (normalizeScheme g.rawPath)
      || exp6m (normalizeScheme g.rawPath)) = false)
    (hexp2 : exp2m (normalizeScheme g.rawPath) = false)
    (hhost : (("github.com".toList).isPrefixOf (normalizeScheme g.rawPath)
      || ("raw.githubusercontent.com".toList).isPrefixOf (normalizeScheme g.rawPath)
      || ("gist.github.com".toList).isPrefixOf (normalizeScheme g.rawPath)) = false)
    (u : UrlObj) (hcu : createUrl (normalizeScheme g.rawPath) = some u)
    (hf : f { url := normalizeScheme g.rawPath, method := g.method
            , headers := g.headers, body := some g.body } = Except.ok resp) :
    handleRequest wl jsd f fuel g = (POut.out resp, [normalizeScheme g.rawPath]) := by
  simp only [handleRequest, handleRequestCore, hq, Bool.false_eq_true, if_false,
    hne, hexp, hexp2, hhost, hcu, hf]

/-- Witness for C10 at a concrete non-GitHub URL. -/
theorem c10_witness :
    handleRequest whiteList Config.jsdelivr okEmpty 1
        (gReqOf ("https://example.org/a.txt".toList))
      = (POut.out { status := 200, headers := [], body := [] },
          [("https://example.org/a.txt".toList)]) :=
  c10_unrecognized_url_passthrough_unmodified whiteList Config.jsdelivr okEmpty 1
    (gReqOf ("https://example.org/a.txt".toList)) { status := 200, headers := [], body := [] }
    rfl (by decide) (by decide) (by decide) (by decide)
    { scheme := ("https".toList), host := ("example.org".toList), rest := ("/a.txt".toList) }
    rfl rfl

/-- Counterexample to claim C8 as stated: an OPTIONS CORS preflight whose
target matches no whitelist entry is answered 204 by `proxyRequest`, because
the preflight branch precedes the whitelist check, so such a request does
NOT get 403. -/
theorem c8_counterexample_preflight_bypasses_whitelist :
    statusOf (proxyRequestFuel [("/alice/".toList)] noFetch 1
        { method := ("OPTIONS".toList)
        , headers := [(("access-control-request-headers".toList), ("content-type".toList))]
        , host := ("h".toList), q := none, rawPath := [], body := [] }
        ("github.com/bob/repo/releases/x".toList)) = some 204
    ∧ ([("/alice/".toList)].any
        (fun item => jsIncludes item ("github.com/bob/repo/releases/x".toList))) = false
    ∧ ¬ statusOf (proxyRequestFuel [("/alice/".toList)] noFetch 1
        { method := ("OPTIONS".toList)
        , headers := [(("access-control-request-headers".toList), ("content-type".toList))]
        , host := ("h".toList), q := none, rawPath := [], body := [] }
        ("github.com/bob/repo/releases/x".toList)) = some 403 :=
  ⟨rfl, by decide, by decide⟩

/-- Claim C8 as amended: for every non-preflight request entering
`proxyRequest` with a non-empty whitelist, a target containing none of the
whitelist substrings is rejected with 403 and no outbound fetch is
performed; an OPTIONS CORS preflight instead short-circuits to 204 before
the whitelist check. -/
theorem c8_amended_whitelist_rejection
    (wl : List Str) (f : Fetch) (fuel : Nat) (g : GReq) (target : Str)
    (hwl : 0 < wl.length)
    (hnp : (g.method == ("OPTIONS".toList)
      && truthy (getHeader g.headers ("access-control-request-headers".toList))) = false)
    (hmiss : wl.any (fun item => jsIncludes item target) = false) :
    proxyRequestFuel wl f fuel g target = (POut.out wlRejectResp, [])
    ∧ wlRejectResp.status = 403 := by
  constructor
  · simp only [proxyRequestFuel, hnp, Bool.false_eq_true, if_false, hmiss]
    rw [if_pos hwl]
  · rfl

/-- Witness for the amended C8: whitelist `['/alice/']` against a
`/bob/...` target. -/
theorem c8_amended_witness :
    proxyRequestFuel [("/alice/".toList)] noFetch 1
        (gReqOf []) ("github.com/bob/repo/releases/x".toList)
      = (POut.out wlRejectResp, [])
    ∧ wlRejectResp.status = 403 :=
  c8_amended_whitelist_rejection [("/alice/".toList)] noFetch 1 (gReqOf [])
    ("github.com/bob/repo/releases/x".toList) (by decide) rfl (by decide)

theorem getHeader_forward_fold_none (hs : Headers) (k : Str) (l : List Str) (acc : Headers)
    (hl : ∀ n ∈ l, lowerStr k ≠ lowerStr n)
    (hacc : getHeader acc k = none) :
    getHeader
      (l.foldl
        (fun acc name =>
          match getHeader hs name with
          | some v => setHeader acc name v
          | none => acc) acc) k = none := by
  induction l generalizing acc with
  | nil => exact hacc
  | cons a t ih =>
      simp only [List.foldl_cons]
      apply ih
      · intro n hn
        exact hl n (List.mem_cons_of_mem a hn)
      · cases hga : getHeader hs a with
        | none => simpa [hga] using hacc
        | some v =>
            simp only [hga]
            rw [getHeader_set_ne acc a v k (hl a (List.mem_cons_self a t))]
            exact hacc

/-- The forward-header collection built by the enhanced variant never
contains a `Host` entry: the allow-list does not include `host` and the
function only ever sets the `X-Forwarded-*` and `User-Agent` keys. -/
theorem buildForwardHeaders_no_host (hs : Headers) (requestUrl : UrlObj) :
    getHeader (buildForwardHeaders hs requestUrl) ("host".toList) = none := by
  unfold buildForwardHeaders
  dsimp only
  have h1 : getHeader
      (headersToForward.foldl
        (fun acc name =>
          match getHeader hs name with
          | some v => setHeader acc name v
          | none => acc) []) ("host".toList) = none :=
    getHeader_forward_fold_none hs ("host".toList) headersToForward [] (by decide) rfl
  split
  · rw [getHeader_set_ne _ _ _ _ (by decide), getHeader_set_ne _ _ _ _ (by decide),
      getHeader_set_ne _ _ _ _ (by decide)]
    exact h1
  · rw [getHeader_set_ne _ _ _ _ (by decide), getHeader_set_ne _ _ _ _ (by decide),
      getHeader_set_ne _ _ _ _ (by decide), getHeader_set_ne _ _ _ _ (by decide)]
    exact h1

/-- Counterexample to claim C6 as stated: in the enhanced query-parameter
variant the forwarded header collection contains no `Host` entry at all, so
the outbound `Host` header does not equal the target hostname
(`example.com`). -/
theorem c6_counterexample_enhanced_host_absent :
    getHeader (buildForwardHeaders
        [(("host".toList), ("proxy.local".toList)), (("accept".toList), ("*/*".toList))]
        { scheme := ("https".toList), host := ("proxy.local".toList), rest := ("/".toList) })
      ("host".toList) = none
    ∧ createUrl ("https://example.com/x".toList)
      = some { scheme := ("https".toList), host := ("example.com".toList), rest := ("/x".toList) }
    ∧ ¬ getHeader (buildForwardHeaders
        [(("host".toList), ("proxy.local".toList)), (("accept".toList), ("*/*".toList))]
        { scheme := ("https".toList), host := ("proxy.local".toList), rest := ("/".toList) })
      ("host".toList) = some ("example.com".toList) :=
  ⟨rfl, rfl, by decide⟩

/-- Claim C6 as amended: in both query-parameter variants the outbound
method equals the inbound method; the passthrough variant sets the outbound
`Host` header to the target hostname, while the enhanced variant forwards no
`Host` header at all (the transport derives it from the URL). -/
theorem c6_amended_method_preserved_host_by_variant
    (q : QReq) (target : Str) (u : UrlObj) (requestUrl : UrlObj) :
    (passthroughOutbound q target u).method = q.method
    ∧ getHeader (passthroughOutbound q target u).headers ("Host".toList) = some u.host
    ∧ (enhancedOutbound q requestUrl u).method = q.method
    ∧ getHeader (enhancedOutbound q requestUrl u).headers ("host".toList) = none := by
  refine ⟨rfl, ?_, rfl, ?_⟩
  · exact getHeader_set_eq q.headers ("Host".toList) u.host ("Host".toList) rfl
  · exact buildForwardHeaders_no_host q.headers requestUrl

theorem replaceFirst_append (pat rep pfx s : Str) (p2 : Str) (hp : pat = '/' :: p2)
    (hc : ∀ c ∈ pfx, c ≠ '/') :
    replaceFirst pat rep (pfx ++ s) = pfx ++ replaceFirst pat rep s := by
  induction pfx with
  | nil => simp
  | cons c t ih =>
      have hne : ('/' == c) = false :=
        beq_eq_false_iff_ne.mpr (fun e => hc c (List.mem_cons_self c t) e.symm)
      have hcp : pat.isPrefixOf (c :: (t ++ s)) = false := by
        rw [hp]
        simp [List.isPrefixOf, hne]
      rw [List.cons_append, replaceFirst, hcp]
      simp only [Bool.false_eq_true, if_false, List.cons_append]
      rw [ih (fun c2 hc2 => hc c2 (List.mem_cons_of_mem _ hc2))]

theorem jsdelivrUrl_github (rest : Str) :
    jsdelivrUrl (("github.com/".toList) ++ rest)
      = ("https://cdn.jsdelivr.net/gh".toList)
        ++ replaceFirst ("/blob/".toList) ("@".toList) ('/' :: rest) := by
  unfold jsdelivrUrl
  have h1 : replaceFirst ("/blob/".toList) ("@".toList) (("github.com/".toList) ++ rest)
      = ("github.com".toList) ++ replaceFirst ("/blob/".toList) ("@".toList) ('/' :: rest) :=
    replaceFirst_append ("/blob/".toList) ("@".toList) ("github.com".toList) ('/' :: rest)
      ("blob/".toList) rfl (by decide)
  rw [h1]
  unfold replaceGithubHost stripPfx
  simp [List.isPrefixOf]

theorem createUrl_cdn (x : Str) :
    createUrl (("https://cdn.jsdelivr.net/gh".toList) ++ x)
      = some { scheme := ("https".toList), host := ("cdn.jsdelivr.net".toList)
             , rest := ("/gh".toList) ++ x } := rfl

/-- Counterexample to claim C5 as stated: `replace('/blob/', '@')` replaces
only the FIRST occurrence, so a blob path containing a second literal
`/blob/` segment is redirected (302, host `cdn.jsdelivr.net`, no fetch) to a
URL that still contains a `/blob/` segment. -/
theorem c5_counterexample_blob_segment_survives :
    handleRequest whiteList Config.jsdelivr noFetch 1
        (gReqOf ("github.com/u/r/blob/main/blob/x".toList))
      = (POut.out
          { status := 302
          , headers := [(("location".toList), ("https://cdn.jsdelivr.net/gh/u/r@main/blob/x".toList))]
          , body := [] }, [])
    ∧ jsIncludes ("/blob/".toList) ("https://cdn.jsdelivr.net/gh/u/r@main/blob/x".toList) = true :=
  ⟨rfl, by decide⟩

/-- Claim C5 as amended: a path-mode request whose (scheme-less) path starts
with `github.com/` and is classified blob/raw, with the CDN mirror enabled,
is answered — without any outbound fetch — by a 302 redirect to the path
with its FIRST `/blob/` occurrence replaced by `@` and the `github.com`
prefix replaced by `https://cdn.jsdelivr.net/gh`; the redirect target
therefore parses with host `cdn.jsdelivr.net`, but a second literal `/blob/`
occurrence in the path survives in the redirect URL. -/
theorem c5_amended_cdn_redirect (f : Fetch) (fuel : Nat)
    (meth host0 b : Str) (hs : Headers) (rest : Str)
    (hex1 : (exp1m (("github.com/".toList) ++ rest) || exp3m (("github.com/".toList) ++ rest)
      || exp4m (("github.com/".toList) ++ rest) || exp5m (("github.com/".toList) ++ rest)
      || exp6m (("github.com/".toList) ++ rest)) = false)
    (hex2 : exp2m (("github.com/".toList) ++ rest) = true) :
    handleRequest whiteList Config.jsdelivr f fuel
        { method := meth, headers := hs, host := host0, q := none
        , rawPath := ("github.com/".toList) ++ rest, body := b }
      = (POut.out
          { status := 302
          , headers := [(("location".toList), jsdelivrUrl (("github.com/".toList) ++ rest))]
          , body := [] }, [])
    ∧ createUrl (jsdelivrUrl (("github.com/".toList) ++ rest))
        = some { scheme := ("https".toList), host := ("cdn.jsdelivr.net".toList)
               , rest := ("/gh".toList) ++ replaceFirst ("/blob/".toList) ("@".toList) ('/' :: rest) } := by
  have hn : normalizeScheme (("github.com/".toList) ++ rest) = ("github.com/".toList) ++ rest := rfl
  have hredir : responseRedirect (jsdelivrUrl (("github.com/".toList) ++ rest)) 302
      = POut.out
          { status := 302
          , headers := [(("location".toList), jsdelivrUrl (("github.com/".toList) ++ rest))]
          , body := [] } := by
    unfold responseRedirect
    rw [jsdelivrUrl_github, createUrl_cdn]
  constructor
  · simp only [handleRequest, handleRequestCore]
    rw [hn]
    have hemp : ((("github.com/".toList) ++ rest).isEmpty
        || ((("github.com/".toList) ++ rest) == PFX)) = false := rfl
    simp only [truthy, Bool.false_eq_true, if_false, hemp, hex1, hex2, if_true, Config.jsdelivr]
    rw [hredir]
  · rw [jsdelivrUrl_github, createUrl_cdn]

/-- Witness for the amended C5 at a concrete single-blob path. -/
theorem c5_amended_witness :
    handleRequest whiteList Config.jsdelivr noFetch 1
        { method := ("GET".toList), headers := [], host := ("h".toList), q := none
        , rawPath := ("github.com/".toList) ++ ("u/r/blob/m/f".toList), body := [] }
      = (POut.out
          { status := 302
          , headers := [(("location".toList), jsdelivrUrl (("github.com/".toList) ++ ("u/r/blob/m/f".toList)))]
          , body := [] }, [])
    ∧ createUrl (jsdelivrUrl (("github.com/".toList) ++ ("u/r/blob/m/f".toList)))
        = some { scheme := ("https".toList), host := ("cdn.jsdelivr.net".toList)
               , rest := ("/gh".toList) ++ replaceFirst ("/blob/".toList) ("@".toList) ('/' :: ("u/r/blob/m/f".toList)) } :=
  c5_amended_cdn_redirect noFetch 1 ("GET".toList) ("h".toList) [] []
    ("u/r/blob/m/f".toList) (by decide) (by decide)
